import Mathlib

/-!
Shallow embedding of the authenticated HTTP client session layer of the
fs-coding-assessment repository.

The embedded code:
* `HttpClient` — the renewal-aware client of `src/unnamed/part_009`
  (`calculateDelay`, `isRetryableError`, `request`, `makeRequest`,
  `refreshAccessToken`, `performRefresh`).
* `HttpClient2` — the client of `src/frontend/src/shared/lib/http-client.ts`,
  which is the same file minus the 401-renewal block inside `makeRequest`.
* `Coord` — an interleaving model of the single-flight renewal coordination
  state (`isRefreshing` / `refreshPromise`) of `part_009`, used for the
  concurrency claims.
* `RenewalCredential` — modelled from the spec (§3): the server-side
  issuer/store that decides renewal-credential usability is not among the
  repository's source files.

JavaScript effects are made explicit: each `fetch` is an oracle value of type
`FetchOutcome` supplied as an argument (a rejected fetch is `netError`, a
settled one carries the `Response`); a thrown error is an `Except.error`
carrying the JS error's `message` and optional `status` property; `undefined`
return values are `Option.none`.
-/

/-- The `detail` field of a parsed error body, per `ApiError` in
`src/frontend/src/shared/types/common.types.ts`:
`detail: string | { [key: string]: string[] }`. -/
inductive Detail where
| str (s : String)
| record (fields : List (String × List String))
deriving DecidableEq

/-- A parsed JSON response document, as the client sees it: the only property
the client ever inspects is `detail`; `residue` is an opaque identifier for
the rest of the document (the payload returned verbatim on success).
`detail = none` models a document without a `detail` property. -/
structure Body where
detail : Option Detail
residue : Nat
deriving DecidableEq

deriving instance DecidableEq for Except

/-- A settled `fetch` `Response`: its status, the `content-length` and
`content-type` headers (absent header = `none`), and the outcome of awaiting
`response.json()` (`Except.error` = the parse-rejection message). -/
structure Response where
status : Nat
contentLength : Option String
contentType : Option String
json : Except String Body
deriving DecidableEq

/-- `Response.ok` of the fetch API: status in the range 200–299. -/
def Response.ok (r : Response) : Bool :=
decide (200 ≤ r.status) && decide (r.status ≤ 299)

/-- Outcome of one `fetch` call: the promise rejects (network error, carrying
the JS error message) or settles with a `Response`. -/
inductive FetchOutcome where
| netError (msg : String)
| resp (r : Response)
deriving DecidableEq

/-- A thrown JS `Error` as the client builds and inspects it: the `message`
and the optional `status` property bolted on (`err.status = ...`). -/
structure Err where
message : String
status : Option Nat
deriving DecidableEq

/-- The `RequestInit` options the client forwards to `fetch`. -/
structure FetchOptions where
method : String
headers : List (String × String)
body : Option String
deriving DecidableEq

/-- The arguments of one issued `fetch` call (after header merging). -/
structure FetchCall where
url : String
method : String
headers : List (String × String)
body : Option String
deriving DecidableEq

/-- `retryConfig` interface, declared identically in both client files. -/
structure RetryConfig where
maxRetries : Nat
baseDelay : Nat
maxDelay : Nat
backoffMultiplier : Nat
deriving DecidableEq

/-- `String.prototype.includes`: contiguous-substring containment, spelled
out over character lists so it is kernel-computable. `startsWithChars p s`
holds when `p` is an initial segment of `s`. -/
def startsWithChars : List Char → List Char → Bool
| [], _ => true
| _ :: _, [] => false
| p :: ps, x :: xs => p == x && startsWithChars ps xs

/-- Does the pattern occur contiguously anywhere in the list? -/
def containsChars (pat : List Char) : List Char → Bool
| [] => pat.isEmpty
| x :: xs => startsWithChars pat (x :: xs) || containsChars pat xs

/-- `s.includes(pat)` of JavaScript. -/
def strIncludes (s pat : String) : Bool :=
containsChars pat.toList s.toList

/-- `JSON.stringify` of a string value (quoting; backslash and quote
escapes — the escapes relevant to the values of this code base). -/
def quoteJson (s : String) : String :=
"\"" ++ ((s.replace "\\" "\\\\").replace "\"" "\\\"") ++ "\""

/-- `JSON.stringify` of a `Detail` value. -/
def stringifyDetail : Detail → String
| .str s => quoteJson s
| .record fs =>
  "\x7b" ++ String.intercalate ","
    (fs.map (fun kv => quoteJson kv.1 ++ ":[" ++ String.intercalate "," (kv.2.map quoteJson) ++ "]"))
  ++ "\x7d"

namespace HttpClient

/-- `DEFAULT_RETRY_CONFIG` of `src/unnamed/part_009`. -/
def DEFAULT_RETRY_CONFIG : RetryConfig :=
{ maxRetries := 3, baseDelay := 1000, maxDelay := 10000, backoffMultiplier := 2 }

/-- `calculateDelay`: `min(baseDelay * pow(backoffMultiplier, attempt - 1), maxDelay)`.
Quoted by `request` only at `attempt ≥ 1`, where JS `attempt - 1` agrees with
Nat subtraction. -/
def calculateDelay (cfg : RetryConfig) (attempt : Nat) : Nat :=
min (cfg.baseDelay * cfg.backoffMultiplier ^ (attempt - 1)) cfg.maxDelay

/-- `isRetryableError(error, status)`. The `status && status >= 500` test is
modelled with JS truthiness (`0` and `null` are falsy). The source tests
`message.includes("timeout")` twice; the duplicate is kept. -/
def isRetryableError (message : String) (status : Option Nat) : Bool :=
if strIncludes message "fetch" || strIncludes message "network" then true
else if (match status with | some s => !(s == 0) && decide (500 ≤ s) | none => false) then true
else if strIncludes message "timeout" || strIncludes message "timeout" then true
else false

/-- The `status || null` coercion at `isRetryableError`'s call site in
`request` (an absent or `0` status becomes `null`). -/
def statusOrNull : Option Nat → Option Nat
| some 0 => none
| s => s

/-- The header merge of `makeRequest`:
`{"Content-Type": "application/json", ...options.headers}` (later entries
shadow earlier ones, as in an object spread). -/
def mergeHeaders (hs : List (String × String)) : List (String × String) :=
("Content-Type", "application/json") :: hs

/-- `performRefresh`: POSTs `/auth/refresh`; returns `response.ok`, and its
`try`/`catch` turns a rejected fetch into `false` — it never throws. -/
def performRefresh : FetchOutcome → Bool
| .netError _ => false
| .resp r => r.ok

/-- The error built from a non-ok response (the block duplicated verbatim for
`response` and `retryResponse` in `makeRequest`):
`await response.json().catch(() => ({detail: "HTTP Error " + status}))`, then
`typeof detail === "string" ? detail : JSON.stringify(detail)`, thrown with
`err.status = status`. `JSON.stringify(undefined)` is `undefined`, and
`new Error(undefined)` has message `""`. -/
def responseError (r : Response) : Err :=
let d : Option Detail :=
  match r.json with
  | .ok body => body.detail
  | .error _ => some (.str ("HTTP Error " ++ toString r.status))
let message : String :=
  match d with
  | some (.str s) => s
  | some dd => stringifyDetail dd
  | none => ""
⟨message, some r.status⟩

/-- The success tail of `makeRequest` (duplicated verbatim for the first and
the post-renewal response): `undefined` on 204 or `content-length: 0`, the
parsed JSON document when `content-type` includes `application/json` (a parse
rejection propagates as a thrown error without `status`), and `undefined`
otherwise. -/
def successValue (r : Response) : Except Err (Option Body) :=
if r.status == 204 || r.contentLength == some "0" then .ok none
else if (match r.contentType with | some ct => strIncludes ct "application/json" | none => false) then
  match r.json with
  | .ok b => .ok (some b)
  | .error m => .error ⟨m, none⟩
else .ok none

/-- The fetch oracle for one `makeRequest` invocation: the outcome of the
initial fetch, of the `/auth/refresh` fetch (consulted only if renewal is
triggered), and of the re-issued original fetch (consulted only if renewal
succeeded). -/
structure AttemptEnv where
first : FetchOutcome
refreshOutcome : FetchOutcome
retry : FetchOutcome
deriving DecidableEq

/-- Observable outcome of one `makeRequest` invocation: the returned value or
thrown error, the fetches of the original URL it issued, and how many renewal
(`performRefresh`) network calls it made. -/
structure MRes where
result : Except Err (Option Body)
calls : List FetchCall
renewals : Nat
deriving DecidableEq

/-- `makeRequest` of `src/unnamed/part_009`, lines 124–218. The sequential
(single logical call) reading: with no concurrent caller the
`refreshAccessToken` wrapper finds `isRefreshing` false, runs
`performRefresh`, and resets the coordination state, so it reduces to
`performRefresh` (the concurrent behaviour is the `Coord` model below). -/
def makeRequest (baseUrl endpoint : String) (options : FetchOptions) (env : AttemptEnv) : MRes :=
let url := baseUrl ++ endpoint
let headers := mergeHeaders options.headers
let call : FetchCall := ⟨url, options.method, headers, options.body⟩
match env.first with
| .netError m => ⟨.error ⟨m, none⟩, [call], 0⟩
| .resp response =>
  if response.status == 401 && endpoint != "/auth/refresh" && endpoint != "/auth/login" then
    if performRefresh env.refreshOutcome then
      match env.retry with
      | .netError m => ⟨.error ⟨m, none⟩, [call, call], 1⟩
      | .resp retryResponse =>
        if !retryResponse.ok then ⟨.error (responseError retryResponse), [call, call], 1⟩
        else ⟨successValue retryResponse, [call, call], 1⟩
    else ⟨.error ⟨"Authentication required", some 401⟩, [call], 1⟩
  else if !response.ok then ⟨.error (responseError response), [call], 0⟩
  else ⟨successValue response, [call], 0⟩

/-- Observable outcome of one `request` invocation: the value or error, the
number of `makeRequest` attempts made, the backoff delays slept (in order),
the renewal calls made and the original-URL fetches issued across attempts. -/
structure RunResult where
result : Except Err (Option Body)
attemptsMade : Nat
delays : List Nat
renewals : Nat
calls : List FetchCall
deriving DecidableEq

/-- The retry loop of `request`, lines 63–95, with the attempt outcomes
supplied by an oracle `mk` (attempt number ↦ outcome of that `makeRequest`
invocation). `fuel` is the number of loop iterations left,
`maxRetries - attempt + 1`; when the loop ends without an iteration (only
possible for `maxRetries = 0`) the trailing
`throw lastError || new Error("Request failed")` throws the fallback. -/
def requestGo (cfg : RetryConfig) (mk : Nat → MRes) : Nat → Nat → RunResult
| attempt, 0 => ⟨.error ⟨"Request failed", none⟩, attempt - 1, [], 0, []⟩
| attempt, fuel + 1 =>
  let m := mk attempt
  match m.result with
  | .ok v => ⟨.ok v, attempt, [], m.renewals, m.calls⟩
  | .error e =>
    if fuel == 0 then ⟨.error e, attempt, [], m.renewals, m.calls⟩
    else if isRetryableError e.message (statusOrNull e.status) then
      let rest := requestGo cfg mk (attempt + 1) fuel
      ⟨rest.result, rest.attemptsMade, calculateDelay cfg attempt :: rest.delays,
        m.renewals + rest.renewals, m.calls ++ rest.calls⟩
    else ⟨.error e, attempt, [], m.renewals, m.calls⟩

/-- `request`: run the loop from attempt 1. -/
def request (cfg : RetryConfig) (mk : Nat → MRes) : RunResult :=
requestGo cfg mk 1 cfg.maxRetries

/-- `request` applied to `makeRequest`, i.e. the whole client pipeline, with
a fetch oracle per attempt. -/
def requestHttp (cfg : RetryConfig) (baseUrl endpoint : String) (options : FetchOptions)
  (env : Nat → AttemptEnv) : RunResult :=
request cfg (fun n => makeRequest baseUrl endpoint options (env n))

end HttpClient

namespace HttpClient2

/-- `DEFAULT_RETRY_CONFIG` of `src/frontend/src/shared/lib/http-client.ts`
(declared identically to the one of `part_009`). -/
def DEFAULT_RETRY_CONFIG : RetryConfig :=
{ maxRetries := 3, baseDelay := 1000, maxDelay := 10000, backoffMultiplier := 2 }

/-- `calculateDelay` of `http-client.ts` (same text as in `part_009`). -/
def calculateDelay (cfg : RetryConfig) (attempt : Nat) : Nat :=
min (cfg.baseDelay * cfg.backoffMultiplier ^ (attempt - 1)) cfg.maxDelay

/-- `isRetryableError` of `http-client.ts` (same text as in `part_009`). -/
def isRetryableError (message : String) (status : Option Nat) : Bool :=
if strIncludes message "fetch" || strIncludes message "network" then true
else if (match status with | some s => !(s == 0) && decide (500 ≤ s) | none => false) then true
else if strIncludes message "timeout" || strIncludes message "timeout" then true
else false

/-- The `status || null` coercion at `isRetryableError`'s call site. -/
def statusOrNull : Option Nat → Option Nat
| some 0 => none
| s => s

/-- The header merge of `makeRequest` (same text as in `part_009`). -/
def mergeHeaders (hs : List (String × String)) : List (String × String) :=
("Content-Type", "application/json") :: hs

/-- The error built from a non-ok response (same text as in `part_009`). -/
def responseError (r : Response) : Err :=
let d : Option Detail :=
  match r.json with
  | .ok body => body.detail
  | .error _ => some (.str ("HTTP Error " ++ toString r.status))
let message : String :=
  match d with
  | some (.str s) => s
  | some dd => stringifyDetail dd
  | none => ""
⟨message, some r.status⟩

/-- The success tail of `makeRequest` (same text as in `part_009`). -/
def successValue (r : Response) : Except Err (Option Body) :=
if r.status == 204 || r.contentLength == some "0" then .ok none
else if (match r.contentType with | some ct => strIncludes ct "application/json" | none => false) then
  match r.json with
  | .ok b => .ok (some b)
  | .error m => .error ⟨m, none⟩
else .ok none

/-- Observable outcome of one `makeRequest` invocation of this client (it
never renews, so only the result and the issued fetches). -/
structure MRes2 where
result : Except Err (Option Body)
calls : List FetchCall
deriving DecidableEq

/-- `makeRequest` of `http-client.ts`, lines 121–169: the `part_009` body
without the 401-renewal block. -/
def makeRequest (baseUrl endpoint : String) (options : FetchOptions) (first : FetchOutcome) : MRes2 :=
let url := baseUrl ++ endpoint
let headers := mergeHeaders options.headers
let call : FetchCall := ⟨url, options.method, headers, options.body⟩
match first with
| .netError m => ⟨.error ⟨m, none⟩, [call]⟩
| .resp response =>
  if !response.ok then ⟨.error (responseError response), [call]⟩
  else ⟨successValue response, [call]⟩

/-- Observable outcome of one `request` invocation of this client. -/
structure RunResult2 where
result : Except Err (Option Body)
attemptsMade : Nat
delays : List Nat
calls : List FetchCall
deriving DecidableEq

/-- The retry loop of `request` of `http-client.ts`, lines 61–93 (same text
as in `part_009`), with per-attempt outcomes supplied by `mk`. -/
def requestGo (cfg : RetryConfig) (mk : Nat → MRes2) : Nat → Nat → RunResult2
| attempt, 0 => ⟨.error ⟨"Request failed", none⟩, attempt - 1, [], []⟩
| attempt, fuel + 1 =>
  let m := mk attempt
  match m.result with
  | .ok v => ⟨.ok v, attempt, [], m.calls⟩
  | .error e =>
    if fuel == 0 then ⟨.error e, attempt, [], m.calls⟩
    else if isRetryableError e.message (statusOrNull e.status) then
      let rest := requestGo cfg mk (attempt + 1) fuel
      ⟨rest.result, rest.attemptsMade, calculateDelay cfg attempt :: rest.delays,
        m.calls ++ rest.calls⟩
    else ⟨.error e, attempt, [], m.calls⟩

/-- `request`: run the loop from attempt 1. -/
def request (cfg : RetryConfig) (mk : Nat → MRes2) : RunResult2 :=
requestGo cfg mk 1 cfg.maxRetries

/-- `request` applied to `makeRequest` with a fetch oracle per attempt. -/
def requestHttp (cfg : RetryConfig) (baseUrl endpoint : String) (options : FetchOptions)
  (env : Nat → FetchOutcome) : RunResult2 :=
request cfg (fun n => makeRequest baseUrl endpoint options (env n))

end HttpClient2

namespace Coord

/-!
Interleaving model of the single-flight renewal coordination of `part_009`
(`refreshAccessToken`, lines 224–241). The JS event loop runs code between
`await` points atomically; the check `isRefreshing && refreshPromise` and the
publication `isRefreshing = true; refreshPromise = performRefresh()` have no
suspension point between them, so one `invoke` event models that whole
synchronous prefix. A `settle` event models the settlement of the pending
renewal promise: every caller awaiting it observes the boolean outcome, and
the initiator's `finally` block resets both fields.
-/

/-- The client's shared coordination state plus the observables of a trace:
how many renewal network calls (`performRefresh` invocations) were made,
which callers are awaiting which pending promise (by id), and the outcomes
the callers observed. -/
structure CoordState where
isRefreshing : Bool
refreshPromise : Option Nat
renewalCalls : Nat
waiting : List (Nat × Nat)
results : List (Nat × Bool)
deriving DecidableEq

/-- An event: a caller runs the synchronous prefix of `refreshAccessToken`
(`invoke`), or the pending renewal settles with a boolean (`settle`). -/
inductive CoordEvent where
| invoke (caller : Nat)
| settle (outcome : Bool)
deriving DecidableEq

/-- One atomic event. `invoke`: if `isRefreshing && refreshPromise` the
caller returns (awaits) the published promise; otherwise it sets the flag,
starts `performRefresh` (a new renewal network call, fresh promise id) and
publishes the promise, itself awaiting it. `settle b`: all callers awaiting
the pending promise observe `b`, and the initiator's `finally` clears
`isRefreshing` and `refreshPromise`. -/
def coordStep (s : CoordState) (e : CoordEvent) : CoordState :=
match e with
| .invoke c =>
  match s.refreshPromise, s.isRefreshing with
  | some p, true => { s with waiting := (c, p) :: s.waiting }
  | _, _ =>
    { s with isRefreshing := true,
             refreshPromise := some s.renewalCalls,
             renewalCalls := s.renewalCalls + 1,
             waiting := (c, s.renewalCalls) :: s.waiting }
| .settle b =>
  match s.refreshPromise with
  | some p =>
    { s with isRefreshing := false, refreshPromise := none,
             waiting := s.waiting.filter (fun w => w.2 != p),
             results := (s.waiting.filter (fun w => w.2 == p)).map (fun w => (w.1, b)) ++ s.results }
  | none => s

/-- The initial state: no renewal in flight, nothing observed. -/
def coordInit : CoordState :=
⟨false, none, 0, [], []⟩

/-- Run a trace of events. -/
def runTrace (s : CoordState) (tr : List CoordEvent) : CoordState :=
tr.foldl coordStep s

end Coord

/-- Modelled from the spec: the server-side issuer/store code
(`verifyRenewalCredential` / `findActive`) that decides renewal-credential
usability is not among the repository's source files (only the client side
is); this record follows §3 of the spec: owning user, creation time, expiry
time, nullable revocation timestamp. -/
structure RenewalCredential where
userId : Nat
createdAt : Nat
expiresAt : Nat
revokedAt : Option Nat
deriving DecidableEq

/-- Modelled from the spec: "a renewal credential is usable to mint a new
AccessCredential if and only if `revoked_at is null AND now < expires_at`"
(§3 invariant; strict comparison, so `now = expires_at` is expired). -/
def renewalUsable (rc : RenewalCredential) (now : Nat) : Bool :=
rc.revokedAt.isNone && decide (now < rc.expiresAt)

/-- A fetch outcome that is a settled 401 response (the condition that makes
the renewal path of `part_009` reachable). -/
def firstIs401 : FetchOutcome → Bool
| .netError _ => false
| .resp r => r.status == 401


/-- Running any number of join `invoke`s and one `settle` from a state whose
pending promise `0` is awaited by the callers `ws`: no further renewal call is
made, and on settlement every waiter observes the outcome and the
coordination state is cleared. -/
lemma coord_run_aux (cs : List Nat) : ∀ (ws : List Nat) (b : Bool),
    Coord.runTrace ⟨true, some 0, 1, ws.map (fun x => (x, 0)), []⟩
        (cs.map .invoke ++ [.settle b])
      = ⟨false, none, 1, [], (cs.reverse ++ ws).map (fun x => (x, b))⟩ := by
  induction cs with
  | nil =>
    intro ws b
    simp [Coord.runTrace, Coord.coordStep, List.filter_map, Function.comp_def, List.map_map]
  | cons c cs ih =>
    intro ws b
    have hstep : Coord.coordStep ⟨true, some 0, 1, ws.map (fun x => (x, 0)), []⟩ (.invoke c)
        = ⟨true, some 0, 1, (c :: ws).map (fun x => (x, 0)), []⟩ := rfl
    calc Coord.runTrace ⟨true, some 0, 1, ws.map (fun x => (x, 0)), []⟩
          ((c :: cs).map .invoke ++ [.settle b])
        = Coord.runTrace ⟨true, some 0, 1, (c :: ws).map (fun x => (x, 0)), []⟩
            (cs.map .invoke ++ [.settle b]) := by
          simp [Coord.runTrace, hstep]
      _ = ⟨false, none, 1, [], (cs.reverse ++ (c :: ws)).map (fun x => (x, b))⟩ := ih (c :: ws) b
      _ = ⟨false, none, 1, [], ((c :: cs).reverse ++ ws).map (fun x => (x, b))⟩ := by
          simp

/-- Claim C1: single-flight renewal. For any burst of callers `c :: cs` that
each reach `refreshAccessToken` while no renewal is in flight (the first) or
while the first caller's renewal is in flight (the rest), followed by that
renewal settling with outcome `b`: exactly one renewal network call is made,
every caller observes the same outcome `b`, and the coordination state is
clear afterwards. Moreover a caller invoking `refreshAccessToken` while a
renewal is outstanding only joins the published promise — the shared state
and the renewal-call count are untouched — because the check of
`isRefreshing`/`refreshPromise` and the publication happen in one atomic
step of `coordStep`. -/
theorem claim_C1 (c : Nat) (cs : List Nat) (b : Bool) :
    Coord.runTrace Coord.coordInit (.invoke c :: (cs.map .invoke ++ [.settle b]))
      = ⟨false, none, 1, [], ((c :: cs).reverse).map (fun x => (x, b))⟩ ∧
    ∀ (c' p rc : Nat) (w : List (Nat × Nat)) (res : List (Nat × Bool)),
      Coord.coordStep ⟨true, some p, rc, w, res⟩ (.invoke c')
        = ⟨true, some p, rc, (c', p) :: w, res⟩ := by
  constructor
  · have hstep : Coord.coordStep Coord.coordInit (.invoke c)
        = ⟨true, some 0, 1, [c].map (fun x => (x, 0)), []⟩ := rfl
    calc Coord.runTrace Coord.coordInit (.invoke c :: (cs.map .invoke ++ [.settle b]))
        = Coord.runTrace ⟨true, some 0, 1, [c].map (fun x => (x, 0)), []⟩
            (cs.map .invoke ++ [.settle b]) := by
          simp [Coord.runTrace, hstep]
      _ = ⟨false, none, 1, [], (cs.reverse ++ [c]).map (fun x => (x, b))⟩ := coord_run_aux cs [c] b
      _ = ⟨false, none, 1, [], ((c :: cs).reverse).map (fun x => (x, b))⟩ := by
          simp
  · intro c' p rc w res
    rfl

/-- Claim C8: the renewal coordination state is always reset and renewal
never throws. Whatever the coordination state was while a renewal promise
was pending, once it settles (with either outcome) `isRefreshing` is `false`
and `refreshPromise` is `null` again; and `performRefresh` is a total
boolean: a rejected fetch (its `catch` branch) yields `false`, a settled
response yields `response.ok`, so a transport error or non-OK response
manifests only as the boolean `false`. -/
theorem claim_C8 :
    (∀ (rf : Bool) (p rc : Nat) (w : List (Nat × Nat)) (res : List (Nat × Bool)) (b : Bool),
      (Coord.coordStep ⟨rf, some p, rc, w, res⟩ (.settle b)).isRefreshing = false ∧
      (Coord.coordStep ⟨rf, some p, rc, w, res⟩ (.settle b)).refreshPromise = none) ∧
    (∀ m : String, HttpClient.performRefresh (.netError m) = false) ∧
    (∀ r : Response, HttpClient.performRefresh (.resp r) = r.ok) := by
  refine ⟨fun rf p rc w res b => ⟨rfl, rfl⟩, fun m => rfl, fun r => rfl⟩

/-- Claim C9: the renewal-credential expiry boundary is inclusive. Modelled
from the spec (the server-side issuer/store is not in the repository's
sources): at `now = expires_at` the credential is not usable, and it is
usable exactly when it is unrevoked and strictly before expiry. -/
theorem claim_C9 (rc : RenewalCredential) (now : Nat) :
    renewalUsable rc rc.expiresAt = false ∧
    (renewalUsable rc now = true ↔ rc.revokedAt = none ∧ now < rc.expiresAt) := by
  constructor
  · simp [renewalUsable]
  · simp [renewalUsable, Option.isNone_iff_eq_none]

/-- Claim C3: self-recursion guard. A 401 response to a request whose
endpoint is `/auth/refresh` or `/auth/login` never enters the renewal path
(no renewal call is made) and is surfaced through the ordinary non-ok error
path, as an error carrying status 401. -/
theorem claim_C3 (baseUrl endpoint : String) (opts : FetchOptions)
    (env : HttpClient.AttemptEnv) (r : Response)
    (he : endpoint = "/auth/refresh" ∨ endpoint = "/auth/login")
    (hf : env.first = .resp r) (hs : r.status = 401) :
    (HttpClient.makeRequest baseUrl endpoint opts env).renewals = 0 ∧
    (HttpClient.makeRequest baseUrl endpoint opts env).result
      = .error (HttpClient.responseError r) ∧
    (HttpClient.responseError r).status = some 401 := by
  have hok : r.ok = false := by
    simp [Response.ok, hs]
  have hstat : (HttpClient.responseError r).status = some 401 := by
    simp [HttpClient.responseError, hs]
  rcases he with he | he <;> subst he <;>
    refine ⟨?_, ?_, hstat⟩ <;>
    simp [HttpClient.makeRequest, hf, hok, hs]

/-- Claim C5: renewal failure is terminal and typed. A 401 on a
non-excluded endpoint whose renewal attempt fails produces no retry of the
original request (exactly the one initial fetch) and throws the error
`"Authentication required"` with status 401; the one renewal attempt is the
only renewal work done. -/
theorem claim_C5 (baseUrl endpoint : String) (opts : FetchOptions)
    (env : HttpClient.AttemptEnv) (r1 : Response)
    (hne : endpoint ≠ "/auth/refresh") (hne2 : endpoint ≠ "/auth/login")
    (hf : env.first = .resp r1) (hs : r1.status = 401)
    (hro : HttpClient.performRefresh env.refreshOutcome = false) :
    HttpClient.makeRequest baseUrl endpoint opts env
      = ⟨.error ⟨"Authentication required", some 401⟩,
         [⟨baseUrl ++ endpoint, opts.method, HttpClient.mergeHeaders opts.headers, opts.body⟩],
         1⟩ := by
  simp [HttpClient.makeRequest, hf, hs, hro, bne_iff_ne, hne, hne2]

/-- Claim C4: transparent renewal on success. A 401 on a non-excluded
endpoint followed by a successful renewal re-issues the original request
exactly once, with the identical URL, method, merged headers and body, making
one renewal call; and when the retry response is OK, the value returned to
the caller is exactly what a first-attempt success with that response would
have returned (the same parse of the response). -/
theorem claim_C4 (baseUrl endpoint : String) (opts : FetchOptions)
    (env : HttpClient.AttemptEnv) (r1 r2 : Response)
    (hne : endpoint ≠ "/auth/refresh") (hne2 : endpoint ≠ "/auth/login")
    (hf : env.first = .resp r1) (hs : r1.status = 401)
    (hro : HttpClient.performRefresh env.refreshOutcome = true)
    (hr : env.retry = .resp r2) (hok : r2.ok = true) :
    HttpClient.makeRequest baseUrl endpoint opts env
      = ⟨HttpClient.successValue r2,
         [⟨baseUrl ++ endpoint, opts.method, HttpClient.mergeHeaders opts.headers, opts.body⟩,
          ⟨baseUrl ++ endpoint, opts.method, HttpClient.mergeHeaders opts.headers, opts.body⟩],
         1⟩ ∧
    (HttpClient.makeRequest baseUrl endpoint opts env).result
      = (HttpClient.makeRequest baseUrl endpoint opts
          ⟨.resp r2, env.refreshOutcome, env.retry⟩).result := by
  have h401 : (r2.status == 401) = false := by
    have h2 : 200 ≤ r2.status ∧ r2.status ≤ 299 := by
      simpa [Response.ok, Bool.and_eq_true] using hok
    simp
    omega
  constructor
  · simp [HttpClient.makeRequest, hf, hs, hro, hr, hok, bne_iff_ne, hne, hne2]
  · simp [HttpClient.makeRequest, hf, hs, hro, hr, hok, h401, bne_iff_ne, hne, hne2]

/-- Witness for C3: a 401 from the refresh endpoint itself, with a parsed
error body, makes no renewal call and surfaces as a status-401 error. -/
theorem claim_C3_witness :
    (("/auth/refresh" : String) = "/auth/refresh" ∨ ("/auth/refresh" : String) = "/auth/login") ∧
    ((HttpClient.makeRequest "" "/auth/refresh" ⟨"POST", [], none⟩
        ⟨.resp ⟨401, none, none, .ok ⟨some (.str "bad token"), 0⟩⟩,
         .netError "x", .netError "y"⟩).renewals = 0 ∧
     (HttpClient.makeRequest "" "/auth/refresh" ⟨"POST", [], none⟩
        ⟨.resp ⟨401, none, none, .ok ⟨some (.str "bad token"), 0⟩⟩,
         .netError "x", .netError "y"⟩).result
       = .error (HttpClient.responseError ⟨401, none, none, .ok ⟨some (.str "bad token"), 0⟩⟩) ∧
     (HttpClient.responseError ⟨401, none, none, .ok ⟨some (.str "bad token"), 0⟩⟩).status
       = some 401) :=
  ⟨Or.inl rfl,
   claim_C3 "" "/auth/refresh" ⟨"POST", [], none⟩
     ⟨.resp ⟨401, none, none, .ok ⟨some (.str "bad token"), 0⟩⟩, .netError "x", .netError "y"⟩
     ⟨401, none, none, .ok ⟨some (.str "bad token"), 0⟩⟩ (Or.inl rfl) rfl rfl⟩

/-- Witness for C5: a 401 on `/todos` whose renewal fetch is rejected by the
network yields the typed `"Authentication required"` 401 error, with a single
fetch of the original URL and one renewal attempt. -/
theorem claim_C5_witness :
    ("/todos" : String) ≠ "/auth/refresh" ∧ ("/todos" : String) ≠ "/auth/login" ∧
    HttpClient.makeRequest "" "/todos" ⟨"GET", [], none⟩
        ⟨.resp ⟨401, none, none, .error "empty"⟩, .netError "down", .netError "unused"⟩
      = ⟨.error ⟨"Authentication required", some 401⟩,
         [⟨"/todos", "GET", [("Content-Type", "application/json")], none⟩], 1⟩ :=
  ⟨by decide, by decide,
   claim_C5 "" "/todos" ⟨"GET", [], none⟩
     ⟨.resp ⟨401, none, none, .error "empty"⟩, .netError "down", .netError "unused"⟩
     ⟨401, none, none, .error "empty"⟩ (by decide) (by decide) rfl rfl rfl⟩

/-- Witness for C4: a 401 on `/todos`, a successful renewal and an OK JSON
retry response: the original fetch is issued twice with identical arguments,
one renewal happens, and the caller gets the parsed retry body exactly as a
first-attempt success would have produced. -/
theorem claim_C4_witness :
    ("/todos" : String) ≠ "/auth/refresh" ∧ ("/todos" : String) ≠ "/auth/login" ∧
    (HttpClient.makeRequest "" "/todos" ⟨"GET", [], none⟩
        ⟨.resp ⟨401, none, none, .error "empty"⟩,
         .resp ⟨200, none, none, .error "unused"⟩,
         .resp ⟨200, none, some "application/json", .ok ⟨none, 7⟩⟩⟩
      = ⟨.ok (some ⟨none, 7⟩),
         [⟨"/todos", "GET", [("Content-Type", "application/json")], none⟩,
          ⟨"/todos", "GET", [("Content-Type", "application/json")], none⟩], 1⟩ ∧
     (HttpClient.makeRequest "" "/todos" ⟨"GET", [], none⟩
        ⟨.resp ⟨401, none, none, .error "empty"⟩,
         .resp ⟨200, none, none, .error "unused"⟩,
         .resp ⟨200, none, some "application/json", .ok ⟨none, 7⟩⟩⟩).result
       = (HttpClient.makeRequest "" "/todos" ⟨"GET", [], none⟩
            ⟨.resp ⟨200, none, some "application/json", .ok ⟨none, 7⟩⟩,
             .resp ⟨200, none, none, .error "unused"⟩,
             .resp ⟨200, none, some "application/json", .ok ⟨none, 7⟩⟩⟩).result) :=
  ⟨by decide, by decide,
   claim_C4 "" "/todos" ⟨"GET", [], none⟩
     ⟨.resp ⟨401, none, none, .error "empty"⟩,
      .resp ⟨200, none, none, .error "unused"⟩,
      .resp ⟨200, none, some "application/json", .ok ⟨none, 7⟩⟩⟩
     ⟨401, none, none, .error "empty"⟩
     ⟨200, none, some "application/json", .ok ⟨none, 7⟩⟩
     (by decide) (by decide) rfl rfl rfl rfl (by decide)⟩

/-- Step equation of the retry loop: a successful attempt returns at once. -/
lemma requestGo_ok_step (cfg : RetryConfig) (mk : Nat → HttpClient.MRes)
    (attempt fuel : Nat) (v : Option Body) (hm : (mk attempt).result = .ok v) :
    HttpClient.requestGo cfg mk attempt (fuel + 1)
      = ⟨.ok v, attempt, [], (mk attempt).renewals, (mk attempt).calls⟩ := by
  simp only [HttpClient.requestGo, hm]

/-- Step equation of the retry loop: the final attempt throws its error. -/
lemma requestGo_last_step (cfg : RetryConfig) (mk : Nat → HttpClient.MRes)
    (attempt : Nat) (e : Err) (hm : (mk attempt).result = .error e) :
    HttpClient.requestGo cfg mk attempt 1
      = ⟨.error e, attempt, [], (mk attempt).renewals, (mk attempt).calls⟩ := by
  simp only [HttpClient.requestGo, hm]
  simp

/-- Step equation of the retry loop: a non-retryable error throws at once. -/
lemma requestGo_noretry_step (cfg : RetryConfig) (mk : Nat → HttpClient.MRes)
    (attempt fuel : Nat) (e : Err) (hm : (mk attempt).result = .error e)
    (hr : HttpClient.isRetryableError e.message (HttpClient.statusOrNull e.status) = false) :
    HttpClient.requestGo cfg mk attempt (fuel + 1)
      = ⟨.error e, attempt, [], (mk attempt).renewals, (mk attempt).calls⟩ := by
  simp only [HttpClient.requestGo, hm]
  cases fuel with
  | zero => simp
  | succ f => simp [hr]

/-- Step equation of the retry loop: a retryable, non-final failure sleeps
the backoff delay and continues with the next attempt. -/
lemma requestGo_retry_step (cfg : RetryConfig) (mk : Nat → HttpClient.MRes)
    (attempt fuel : Nat) (e : Err) (hm : (mk attempt).result = .error e)
    (hr : HttpClient.isRetryableError e.message (HttpClient.statusOrNull e.status) = true)
    (hf : fuel ≠ 0) :
    HttpClient.requestGo cfg mk attempt (fuel + 1)
      = ⟨(HttpClient.requestGo cfg mk (attempt + 1) fuel).result,
         (HttpClient.requestGo cfg mk (attempt + 1) fuel).attemptsMade,
         HttpClient.calculateDelay cfg attempt :: (HttpClient.requestGo cfg mk (attempt + 1) fuel).delays,
         (mk attempt).renewals + (HttpClient.requestGo cfg mk (attempt + 1) fuel).renewals,
         (mk attempt).calls ++ (HttpClient.requestGo cfg mk (attempt + 1) fuel).calls⟩ := by
  simp only [HttpClient.requestGo, hm]
  simp [hf, hr]

/-- Attempt-count bound and backoff schedule of the retry loop: starting at
`attempt ≥ 1` with `fuel` iterations left, the loop makes at most `fuel`
further attempts (and at least the current one when `fuel ≥ 1`), and the
delays it sleeps are exactly `calculateDelay` of each failed non-final
attempt, in order. -/
lemma requestGo_bound (cfg : RetryConfig) (mk : Nat → HttpClient.MRes) :
    ∀ (fuel attempt : Nat), 1 ≤ attempt →
      (HttpClient.requestGo cfg mk attempt fuel).attemptsMade + 1 ≤ attempt + fuel ∧
      (1 ≤ fuel → attempt ≤ (HttpClient.requestGo cfg mk attempt fuel).attemptsMade) ∧
      (HttpClient.requestGo cfg mk attempt fuel).delays
        = (List.range' attempt ((HttpClient.requestGo cfg mk attempt fuel).attemptsMade - attempt)).map
            (HttpClient.calculateDelay cfg) := by
  intro fuel
  induction fuel with
  | zero =>
    intro attempt h1
    simp only [HttpClient.requestGo]
    refine ⟨by omega, by omega, ?_⟩
    have hz : attempt - 1 - attempt = 0 := by omega
    simp [hz]
  | succ fuel ih =>
    intro attempt h1
    rcases hm : (mk attempt).result with e | v
    · cases fuel with
      | zero =>
        rw [requestGo_last_step cfg mk attempt e hm]
        exact ⟨by simp, fun _ => le_refl _, by simp⟩
      | succ f =>
        rcases hr : HttpClient.isRetryableError e.message (HttpClient.statusOrNull e.status) with _ | _
        · rw [requestGo_noretry_step cfg mk attempt (f + 1) e hm hr]
          exact ⟨by simp, fun _ => le_refl _, by simp⟩
        · have hrec := ih (attempt + 1) (by omega)
          have hge : attempt + 1 ≤ (HttpClient.requestGo cfg mk (attempt + 1) (f + 1)).attemptsMade :=
            hrec.2.1 (by omega)
          have hrange :
              List.range' attempt
                  ((HttpClient.requestGo cfg mk (attempt + 1) (f + 1)).attemptsMade - attempt)
                = attempt :: List.range' (attempt + 1)
                    ((HttpClient.requestGo cfg mk (attempt + 1) (f + 1)).attemptsMade - (attempt + 1)) := by
            have hsub : (HttpClient.requestGo cfg mk (attempt + 1) (f + 1)).attemptsMade - attempt
                = ((HttpClient.requestGo cfg mk (attempt + 1) (f + 1)).attemptsMade - (attempt + 1)) + 1 := by
              omega
            rw [hsub, List.range'_succ]
          rw [requestGo_retry_step cfg mk attempt (f + 1) e hm hr (by omega)]
          refine ⟨?_, ?_, ?_⟩
          · have := hrec.1
            simp only []
            omega
          · intro _
            simp only []
            omega
          · show HttpClient.calculateDelay cfg attempt
                  :: (HttpClient.requestGo cfg mk (attempt + 1) (f + 1)).delays
                = _
            rw [hrec.2.2]
            show _ = List.map (HttpClient.calculateDelay cfg)
                (List.range' attempt
                  ((HttpClient.requestGo cfg mk (attempt + 1) (f + 1)).attemptsMade - attempt))
            rw [hrange, List.map_cons]
    · rw [requestGo_ok_step cfg mk attempt fuel v hm]
      exact ⟨by simp, fun _ => le_refl _, by simp⟩

/-- Claim C7: backoff formula and attempt bound. `calculateDelay` is exactly
`min(baseDelay * backoffMultiplier^(n-1), maxDelay)`; a `request` run makes
at most `maxRetries` attempts; the delays slept are exactly the backoff of
attempts `1 .. attemptsMade - 1` (so after the final failed attempt the error
is thrown with no further delay); and the default configuration is
`maxRetries = 3`, `baseDelay = 1000`, `maxDelay = 10000`, multiplier 2. -/
theorem claim_C7 (cfg : RetryConfig) (mk : Nat → HttpClient.MRes) :
    (∀ n, HttpClient.calculateDelay cfg n
        = min (cfg.baseDelay * cfg.backoffMultiplier ^ (n - 1)) cfg.maxDelay) ∧
    (HttpClient.request cfg mk).attemptsMade ≤ cfg.maxRetries ∧
    (HttpClient.request cfg mk).delays
      = (List.range' 1 ((HttpClient.request cfg mk).attemptsMade - 1)).map
          (HttpClient.calculateDelay cfg) ∧
    HttpClient.DEFAULT_RETRY_CONFIG = ⟨3, 1000, 10000, 2⟩ := by
  have h := requestGo_bound cfg mk cfg.maxRetries 1 (by omega)
  exact ⟨fun n => rfl, by have := h.1; unfold HttpClient.request; omega, h.2.2, rfl⟩

/-- A first attempt that fails with a non-retryable error ends the run at
once: no delay is slept and the error is thrown to the caller. -/
lemma request_first_noretry (cfg : RetryConfig) (mk : Nat → HttpClient.MRes) (e : Err)
    (hmax : 1 ≤ cfg.maxRetries) (hm : (mk 1).result = .error e)
    (hnr : HttpClient.isRetryableError e.message (HttpClient.statusOrNull e.status) = false) :
    HttpClient.request cfg mk = ⟨.error e, 1, [], (mk 1).renewals, (mk 1).calls⟩ := by
  obtain ⟨k, hk⟩ : ∃ k, cfg.maxRetries = k + 1 := ⟨cfg.maxRetries - 1, by omega⟩
  unfold HttpClient.request
  rw [hk]
  cases k with
  | zero => exact requestGo_last_step cfg mk 1 e hm
  | succ f => exact requestGo_noretry_step cfg mk 1 (f + 1) e hm hnr

/-- Counterexample to C2 as stated: one logical call through
`HttpClient.request` in which every attempt receives a 401, renews
successfully, and fails its post-renewal retry with a retryable 500. The
claim says such a call performs at most one renewal and terminates without
further renewal attempts; in fact the retry loop re-runs `makeRequest` after
each 5xx retry failure, and the run performs three renewals over three
attempts, sleeping the backoff delays in between. -/
theorem claim_C2_counterexample :
    (HttpClient.requestHttp HttpClient.DEFAULT_RETRY_CONFIG "" "/todos" ⟨"GET", [], none⟩
        (fun _ => ⟨.resp ⟨401, none, none, .error "empty"⟩,
                   .resp ⟨200, none, none, .error "unused"⟩,
                   .resp ⟨500, none, none, .ok ⟨some (.str "boom"), 0⟩⟩⟩)).renewals = 3 ∧
    (HttpClient.requestHttp HttpClient.DEFAULT_RETRY_CONFIG "" "/todos" ⟨"GET", [], none⟩
        (fun _ => ⟨.resp ⟨401, none, none, .error "empty"⟩,
                   .resp ⟨200, none, none, .error "unused"⟩,
                   .resp ⟨500, none, none, .ok ⟨some (.str "boom"), 0⟩⟩⟩)).delays
      = [1000, 2000] := by decide

/-- Claim C2 as amended: at most one renewal and at most one retry occur per
`makeRequest` attempt, and when the post-renewal retry fails with a 401 that
is non-retryable under `isRetryableError` the logical call through `request`
terminates at once — one attempt, one renewal, no backoff, the retry's error
thrown. (A retryable post-renewal failure instead re-enters the retry loop,
where a later attempt may renew again, as the counterexample shows.) -/
theorem claim_C2_amended (cfg : RetryConfig) (baseUrl endpoint : String) (opts : FetchOptions)
    (env : HttpClient.AttemptEnv) (r1 r2 : Response)
    (hmax : 1 ≤ cfg.maxRetries)
    (hne : endpoint ≠ "/auth/refresh") (hne2 : endpoint ≠ "/auth/login")
    (hf : env.first = .resp r1) (hs1 : r1.status = 401)
    (hro : HttpClient.performRefresh env.refreshOutcome = true)
    (hr : env.retry = .resp r2) (hs2 : r2.status = 401)
    (hnr : HttpClient.isRetryableError (HttpClient.responseError r2).message
        (HttpClient.statusOrNull (HttpClient.responseError r2).status) = false) :
    (∀ env' : HttpClient.AttemptEnv,
       (HttpClient.makeRequest baseUrl endpoint opts env').renewals ≤ 1 ∧
       (HttpClient.makeRequest baseUrl endpoint opts env').calls.length ≤ 2) ∧
    HttpClient.request cfg (fun _ => HttpClient.makeRequest baseUrl endpoint opts env)
      = ⟨.error (HttpClient.responseError r2), 1, [], 1,
         [⟨baseUrl ++ endpoint, opts.method, HttpClient.mergeHeaders opts.headers, opts.body⟩,
          ⟨baseUrl ++ endpoint, opts.method, HttpClient.mergeHeaders opts.headers, opts.body⟩]⟩ := by
  have hok2 : r2.ok = false := by
    simp [Response.ok, hs2]
  have hmk : HttpClient.makeRequest baseUrl endpoint opts env
      = ⟨.error (HttpClient.responseError r2),
         [⟨baseUrl ++ endpoint, opts.method, HttpClient.mergeHeaders opts.headers, opts.body⟩,
          ⟨baseUrl ++ endpoint, opts.method, HttpClient.mergeHeaders opts.headers, opts.body⟩],
         1⟩ := by
    simp [HttpClient.makeRequest, hf, hs1, hro, hr, hok2, bne_iff_ne, hne, hne2]
  constructor
  · intro env'
    rcases h1 : env'.first with m | r
    · simp [HttpClient.makeRequest, h1]
    · rcases h2 : env'.retry with m2 | rr <;>
        simp [HttpClient.makeRequest, h1, h2] <;> split_ifs <;> simp
  · have hres := request_first_noretry cfg
      (fun _ => HttpClient.makeRequest baseUrl endpoint opts env)
      (HttpClient.responseError r2) hmax (by simp [hmk]) hnr
    rw [hres]
    simp [hmk]

/-- Witness for the amended C2: a 401 followed by a successful renewal and a
second 401 (body detail `"Unauthorized"`) fails after exactly one attempt,
one renewal and no backoff, throwing the retry's error. -/
theorem claim_C2_witness :
    1 ≤ HttpClient.DEFAULT_RETRY_CONFIG.maxRetries ∧
    HttpClient.request HttpClient.DEFAULT_RETRY_CONFIG
        (fun _ => HttpClient.makeRequest "" "/todos" ⟨"GET", [], none⟩
          ⟨.resp ⟨401, none, none, .error "empty"⟩,
           .resp ⟨200, none, none, .error "unused"⟩,
           .resp ⟨401, none, none, .ok ⟨some (.str "Unauthorized"), 0⟩⟩⟩)
      = ⟨.error ⟨"Unauthorized", some 401⟩, 1, [], 1,
         [⟨"/todos", "GET", [("Content-Type", "application/json")], none⟩,
          ⟨"/todos", "GET", [("Content-Type", "application/json")], none⟩]⟩ :=
  ⟨by decide,
   (claim_C2_amended HttpClient.DEFAULT_RETRY_CONFIG "" "/todos" ⟨"GET", [], none⟩
      ⟨.resp ⟨401, none, none, .error "empty"⟩,
       .resp ⟨200, none, none, .error "unused"⟩,
       .resp ⟨401, none, none, .ok ⟨some (.str "Unauthorized"), 0⟩⟩⟩
      ⟨401, none, none, .error "empty"⟩
      ⟨401, none, none, .ok ⟨some (.str "Unauthorized"), 0⟩⟩
      (by decide) (by decide) (by decide) rfl rfl (by decide) rfl rfl (by decide)).2⟩

/-- Counterexample to C6 as stated: an error carrying HTTP status 400 (a
4xx other than the 401-renewal case) whose message happens to contain
`"network"` — a 400 response whose body detail is `"network unreachable"` —
is classified retryable and the run enters backoff and retries to
exhaustion, instead of being surfaced immediately. -/
theorem claim_C6_counterexample :
    HttpClient.isRetryableError "network unreachable" (HttpClient.statusOrNull (some 400)) = true ∧
    HttpClient.requestHttp HttpClient.DEFAULT_RETRY_CONFIG "" "/todos" ⟨"GET", [], none⟩
        (fun _ => ⟨.resp ⟨400, none, none, .ok ⟨some (.str "network unreachable"), 0⟩⟩,
                   .netError "unused", .netError "unused2"⟩)
      = ⟨.error ⟨"network unreachable", some 400⟩, 3, [1000, 2000], 0,
         [⟨"/todos", "GET", [("Content-Type", "application/json")], none⟩,
          ⟨"/todos", "GET", [("Content-Type", "application/json")], none⟩,
          ⟨"/todos", "GET", [("Content-Type", "application/json")], none⟩]⟩ := by decide

/-- Claim C6 as amended: an attempt's error is retried exactly when its
message contains `"fetch"`, `"network"` or `"timeout"`, or it carries an
HTTP status ≥ 500; an error that is not retryable under this classification
(in particular a 4xx-status error with none of those substrings in its
message) is surfaced to the caller immediately, with no backoff; a
retryable one enters backoff and a further attempt. -/
theorem claim_C6_amended (cfg : RetryConfig) (mk : Nat → HttpClient.MRes) (e : Err)
    (hmax : 2 ≤ cfg.maxRetries) (hm : (mk 1).result = .error e) :
    (∀ (msg : String) (st : Option Nat),
       HttpClient.isRetryableError msg st = true ↔
         (strIncludes msg "fetch" = true ∨ strIncludes msg "network" = true ∨
          strIncludes msg "timeout" = true ∨ ∃ s, st = some s ∧ 500 ≤ s)) ∧
    (HttpClient.isRetryableError e.message (HttpClient.statusOrNull e.status) = false →
       HttpClient.request cfg mk = ⟨.error e, 1, [], (mk 1).renewals, (mk 1).calls⟩) ∧
    (HttpClient.isRetryableError e.message (HttpClient.statusOrNull e.status) = true →
       2 ≤ (HttpClient.request cfg mk).attemptsMade ∧
       (HttpClient.request cfg mk).delays ≠ []) := by
  refine ⟨?_, ?_, ?_⟩
  · intro msg st
    simp only [HttpClient.isRetryableError]
    split_ifs with h1 h2 h3
    · simp only [Bool.or_eq_true] at h1
      exact iff_of_true rfl (h1.elim Or.inl (fun h => Or.inr (Or.inl h)))
    · rcases st with _ | s
      · simp at h2
      · simp only [Bool.and_eq_true, Bool.not_eq_true', beq_eq_false_iff_ne, ne_eq,
          decide_eq_true_eq] at h2
        exact iff_of_true rfl (Or.inr (Or.inr (Or.inr ⟨s, rfl, h2.2⟩)))
    · simp only [Bool.or_self] at h3
      exact iff_of_true rfl (Or.inr (Or.inr (Or.inl h3)))
    · simp only [Bool.or_eq_true, not_or, Bool.not_eq_true] at h1 h3
      refine iff_of_false (by simp) ?_
      rintro (hx | hx | hx | ⟨s, hst, hs⟩)
      · exact absurd hx (by simp [h1.1])
      · exact absurd hx (by simp [h1.2])
      · exact absurd hx (by simp [h3.1])
      · subst hst
        simp only [Bool.and_eq_true, Bool.not_eq_true', beq_eq_false_iff_ne, ne_eq,
          decide_eq_true_eq, not_and] at h2
        rcases Nat.eq_zero_or_pos s with h0 | h0
        · omega
        · exact absurd hs (by simpa using h2 (by omega))
  · intro hnr
    exact request_first_noretry cfg mk e (by omega) hm hnr
  · intro hr
    obtain ⟨k, hk⟩ : ∃ k, cfg.maxRetries = k + 1 + 1 := ⟨cfg.maxRetries - 2, by omega⟩
    have hstep := requestGo_retry_step cfg mk 1 (k + 1) e hm hr (by omega)
    have hb := (requestGo_bound cfg mk (k + 1) 2 (by omega)).2.1 (by omega)
    constructor
    · show 2 ≤ (HttpClient.request cfg mk).attemptsMade
      unfold HttpClient.request
      rw [hk, hstep]
      exact hb
    · unfold HttpClient.request
      rw [hk, hstep]
      simp

/-- Witness for the amended C6: an error with status 400 and message
`"bad request"` is not retryable and is thrown after one attempt with no
delay. -/
theorem claim_C6_witness :
    2 ≤ HttpClient.DEFAULT_RETRY_CONFIG.maxRetries ∧
    HttpClient.isRetryableError "bad request" (HttpClient.statusOrNull (some 400)) = false ∧
    HttpClient.request HttpClient.DEFAULT_RETRY_CONFIG
        (fun _ => ⟨.error ⟨"bad request", some 400⟩, [], 0⟩)
      = ⟨.error ⟨"bad request", some 400⟩, 1, [], 0, []⟩ :=
  ⟨by decide, by decide,
   (claim_C6_amended HttpClient.DEFAULT_RETRY_CONFIG
      (fun _ => ⟨.error ⟨"bad request", some 400⟩, [], 0⟩)
      ⟨"bad request", some 400⟩ (by decide) rfl).2.1 (by decide)⟩

/-- When the first fetch of an attempt is not a settled 401 — or the
endpoint is one of the two excluded auth endpoints — the renewal-aware
`makeRequest` of `part_009` behaves exactly like the `http-client.ts`
`makeRequest`: same result, same issued fetches, and no renewal call. -/
lemma makeRequest_no401 (baseUrl endpoint : String) (opts : FetchOptions)
    (env : HttpClient.AttemptEnv)
    (h : endpoint = "/auth/refresh" ∨ endpoint = "/auth/login" ∨ firstIs401 env.first = false) :
    HttpClient.makeRequest baseUrl endpoint opts env
      = ⟨(HttpClient2.makeRequest baseUrl endpoint opts env.first).result,
         (HttpClient2.makeRequest baseUrl endpoint opts env.first).calls, 0⟩ := by
  have hsv : HttpClient2.successValue = HttpClient.successValue := rfl
  have hre : HttpClient2.responseError = HttpClient.responseError := rfl
  have hmh : HttpClient2.mergeHeaders = HttpClient.mergeHeaders := rfl
  rcases hf : env.first with m | r
  · simp [HttpClient.makeRequest, HttpClient2.makeRequest, hf, hmh]
  · rcases h with he | he | h401
    · subst he
      simp only [HttpClient.makeRequest, HttpClient2.makeRequest, hf, hsv, hre, hmh,
        bne_self_eq_false, Bool.and_false, Bool.false_and, Bool.false_eq_true, if_false]
      split_ifs <;> rfl
    · subst he
      have d1 : (("/auth/login" : String) != "/auth/login") = false := by decide
      simp only [HttpClient.makeRequest, HttpClient2.makeRequest, hf, hsv, hre, hmh, d1,
        Bool.and_false, Bool.false_and, Bool.false_eq_true, if_false]
      split_ifs <;> rfl
    · rw [hf] at h401
      simp only [firstIs401] at h401
      simp only [HttpClient.makeRequest, HttpClient2.makeRequest, hf, hsv, hre, hmh, h401,
        Bool.false_and, Bool.false_eq_true, if_false]
      split_ifs <;> rfl

/-- If every attempt outcome of the `part_009` loop is the corresponding
`http-client.ts` attempt outcome with zero renewals, the two retry loops
agree step for step: same result, attempt count, backoff delays and fetches,
and zero renewals overall. -/
lemma requestGo_equiv (cfg : RetryConfig) (mk : Nat → HttpClient.MRes)
    (mk2 : Nat → HttpClient2.MRes2)
    (h : ∀ n, mk n = ⟨(mk2 n).result, (mk2 n).calls, 0⟩) :
    ∀ (fuel attempt : Nat),
      HttpClient.requestGo cfg mk attempt fuel
        = ⟨(HttpClient2.requestGo cfg mk2 attempt fuel).result,
           (HttpClient2.requestGo cfg mk2 attempt fuel).attemptsMade,
           (HttpClient2.requestGo cfg mk2 attempt fuel).delays, 0,
           (HttpClient2.requestGo cfg mk2 attempt fuel).calls⟩ := by
  have hir : HttpClient2.isRetryableError = HttpClient.isRetryableError := rfl
  have hsn : HttpClient2.statusOrNull = HttpClient.statusOrNull := rfl
  have hcd : HttpClient2.calculateDelay = HttpClient.calculateDelay := rfl
  intro fuel
  induction fuel with
  | zero => intro attempt; rfl
  | succ fuel ih =>
    intro attempt
    simp only [HttpClient.requestGo, HttpClient2.requestGo, h attempt, hir, hsn, hcd]
    rcases hm2 : (mk2 attempt).result with e | v
    · simp only [hm2]
      split_ifs with h1 h2
      · rfl
      · rw [ih (attempt + 1)]
        simp
      · rfl
    · simp only [hm2]

/-- Claim C10: equivalence of the two shipped HTTP clients absent renewal.
For any configuration, endpoint and per-attempt fetch outcomes, if no
attempt's first fetch settles with a 401 — or the endpoint is
`/auth/refresh` or `/auth/login` — then `request` of the `part_009` client
and `request` of the `http-client.ts` client produce identical outcomes:
the same returned value or thrown error, the same attempt count and backoff
delays, the same issued fetches, and no renewal call at all. -/
theorem claim_C10 (cfg : RetryConfig) (baseUrl endpoint : String) (opts : FetchOptions)
    (env : Nat → HttpClient.AttemptEnv)
    (h : endpoint = "/auth/refresh" ∨ endpoint = "/auth/login" ∨
         ∀ n, firstIs401 (env n).first = false) :
    HttpClient.requestHttp cfg baseUrl endpoint opts env
      = ⟨(HttpClient2.requestHttp cfg baseUrl endpoint opts (fun n => (env n).first)).result,
         (HttpClient2.requestHttp cfg baseUrl endpoint opts (fun n => (env n).first)).attemptsMade,
         (HttpClient2.requestHttp cfg baseUrl endpoint opts (fun n => (env n).first)).delays,
         0,
         (HttpClient2.requestHttp cfg baseUrl endpoint opts (fun n => (env n).first)).calls⟩ := by
  have hmk : ∀ n, HttpClient.makeRequest baseUrl endpoint opts (env n)
      = ⟨(HttpClient2.makeRequest baseUrl endpoint opts (env n).first).result,
         (HttpClient2.makeRequest baseUrl endpoint opts (env n).first).calls, 0⟩ := by
    intro n
    apply makeRequest_no401
    rcases h with he | he | hall
    exacts [Or.inl he, Or.inr (Or.inl he), Or.inr (Or.inr (hall n))]
  unfold HttpClient.requestHttp HttpClient2.requestHttp HttpClient.request HttpClient2.request
  exact requestGo_equiv cfg _ _ hmk cfg.maxRetries 1

/-- Witness for C10: a `/todos` run whose only attempt succeeds with a 200
JSON response gives the identical outcome in both clients (and the first
fetch is indeed not a 401). -/
theorem claim_C10_witness :
    firstIs401 (.resp ⟨200, none, some "application/json", .ok ⟨none, 5⟩⟩) = false ∧
    HttpClient.requestHttp HttpClient.DEFAULT_RETRY_CONFIG "" "/todos" ⟨"GET", [], none⟩
        (fun _ => ⟨.resp ⟨200, none, some "application/json", .ok ⟨none, 5⟩⟩,
                   .netError "unused", .netError "unused2"⟩)
      = ⟨.ok (some ⟨none, 5⟩), 1, [], 0,
         [⟨"/todos", "GET", [("Content-Type", "application/json")], none⟩]⟩ :=
  ⟨by decide,
   claim_C10 HttpClient.DEFAULT_RETRY_CONFIG "" "/todos" ⟨"GET", [], none⟩
     (fun _ => ⟨.resp ⟨200, none, some "application/json", .ok ⟨none, 5⟩⟩,
                .netError "unused", .netError "unused2"⟩)
     (Or.inr (Or.inr (fun _ => rfl)))⟩

example : HttpClient.calculateDelay HttpClient.DEFAULT_RETRY_CONFIG 1 = 1000 := by decide
example : HttpClient.calculateDelay HttpClient.DEFAULT_RETRY_CONFIG 2 = 2000 := by decide
example : HttpClient.calculateDelay HttpClient.DEFAULT_RETRY_CONFIG 5 = 10000 := by decide
example : strIncludes "failed to fetch" "fetch" = true := by decide
example : strIncludes "Unauthorized" "network" = false := by decide
example : HttpClient.isRetryableError "network unreachable" (HttpClient.statusOrNull (some 400)) = true := by decide
example : HttpClient.isRetryableError "Unauthorized" (HttpClient.statusOrNull (some 401)) = false := by decide
